import Mathlib

/-!
Verification development for the vector-storage factory module
(`src/core/vector_storage/factory.ts`).

The embedding mirrors the TypeScript source.  JavaScript values are
modelled as follows:
- a string environment variable is `Option String` (`none` = `undefined`);
  JS truthiness of such a value is `truthyS` (`undefined` and `""` are falsy);
- a numeric environment value is `JsNum` (`nan` models `NaN`, which the
  env layer produces for unset/unparsable numeric variables) or
  `Option JsNum` where the source also checks `!== undefined`;
  JS numbers are modelled as integers, which covers every value the
  claims quantify over;
- the `agentConfig?.embedding?.dimensions` override is `Option JsDim`:
  `none` when the optional chain is absent or falsy, otherwise a number,
  `NaN`, or a truthy non-number value.
-/

/-- A JavaScript number: either an actual (integer-modelled) value or `NaN`. -/
inductive JsNum where
  | val (n : Int)
  | nan
deriving DecidableEq, Repr

/-- The value found at `agentConfig.embedding.dimensions` when the optional
chain reaches it: a number, `NaN`, or a truthy value of non-number type. -/
inductive JsDim where
  | num (n : Int)
  | nan
  | other
deriving DecidableEq, Repr

/-- JS truthiness of a possibly-undefined string: `undefined` and `""` are falsy. -/
def truthyS : Option String → Bool
  | none => false
  | some s => s ≠ ""

/-- JS `a || b` on possibly-undefined strings. -/
def jsOr (a b : Option String) : Option String :=
  if truthyS a then a else b

/-- JS `a || d` where `d` is a string literal default. -/
def jsOrD (a : Option String) (d : String) : String :=
  match a with
  | some s => if s = "" then d else s
  | none => d

/-- `x !== undefined && !Number.isNaN(x) ? x : d` -/
def jsNumOrD (x : Option JsNum) (d : Int) : Int :=
  match x with
  | some (JsNum.val n) => n
  | _ => d

/-- `Number.isNaN(p) ? undefined : p` (the qdrant/milvus/chroma port read). -/
def portOf : JsNum → Option Int
  | JsNum.nan => none
  | JsNum.val n => some n

/-- `Number.isNaN(wsPort) ? (Number.isNaN(port) ? undefined : port) : wsPort` -/
def wsPortOf (ws p : JsNum) : Option Int :=
  match ws with
  | JsNum.nan => portOf p
  | JsNum.val n => some n

/-- JS truthiness of the `dimensions` value (`0` and `NaN` are falsy). -/
def dimTruthy : JsDim → Bool
  | JsDim.num n => n ≠ 0
  | JsDim.nan => false
  | JsDim.other => true

/-- The dimension-override guard of the source: the override is applied when
`agentConfig.embedding.dimensions` is truthy, `typeof ... === 'number'`, and
positive; otherwise the environment-derived dimension stays. -/
def applyDimOverride (dim : Int) (ov : Option JsDim) : Int :=
  match ov with
  | none => dim
  | some d =>
    if dimTruthy d then
      match d with
      | JsDim.num n => if n > 0 then n else dim
      | _ => dim
    else dim

/-- The environment-like key/value source consumed by the resolvers
(the `env` object of the source, restricted to the keys the factory reads). -/
structure EnvSource where
  VECTOR_STORE_TYPE : Option String
  VECTOR_STORE_COLLECTION : String
  VECTOR_STORE_DIMENSION : Option JsNum
  VECTOR_STORE_MAX_VECTORS : Option JsNum
  VECTOR_STORE_HOST : Option String
  VECTOR_STORE_URL : Option String
  VECTOR_STORE_PORT : JsNum
  VECTOR_STORE_API_KEY : Option String
  VECTOR_STORE_DISTANCE : Option String
  VECTOR_STORE_ON_DISK : Option Bool
  VECTOR_STORE_USERNAME : Option String
  VECTOR_STORE_PASSWORD : Option String
  PINECONE_NAMESPACE : Option String
  PINECONE_METRIC : Option String
  REFLECTION_VECTOR_STORE_COLLECTION : Option String
  USE_WORKSPACE_MEMORY : Bool
  WORKSPACE_VECTOR_STORE_TYPE : Option String
  WORKSPACE_VECTOR_STORE_COLLECTION : Option String
  WORKSPACE_VECTOR_STORE_DIMENSION : Option JsNum
  WORKSPACE_VECTOR_STORE_MAX_VECTORS : Option JsNum
  WORKSPACE_VECTOR_STORE_HOST : Option String
  WORKSPACE_VECTOR_STORE_URL : Option String
  WORKSPACE_VECTOR_STORE_PORT : JsNum
  WORKSPACE_VECTOR_STORE_API_KEY : Option String
  WORKSPACE_VECTOR_STORE_DISTANCE : Option String
  WORKSPACE_VECTOR_STORE_ON_DISK : Option Bool
  WORKSPACE_VECTOR_STORE_USERNAME : Option String
  WORKSPACE_VECTOR_STORE_PASSWORD : Option String
deriving DecidableEq, Repr

/-- The plain object returned by the resolvers, flattened over all backend
variants; a field that the returned JS object does not carry is `none`.
`fallbackFrom` is the source's `_fallbackFrom` marker; `nameSpace` is the
source's `namespace` field (a Lean keyword). -/
structure VSConfig where
  type : String
  collectionName : String
  dimension : Int
  maxVectors : Option Int := none
  fallbackFrom : Option String := none
  url : Option String := none
  host : Option String := none
  port : Option Int := none
  apiKey : Option String := none
  distance : Option String := none
  onDisk : Option Bool := none
  username : Option String := none
  password : Option String := none
  token : Option String := none
  indexName : Option String := none
  nameSpace : Option String := none
  metric : Option String := none
deriving DecidableEq, Repr

/-- The chroma-branch distance normalization: `switch (envDistance.toLowerCase())`
with default `'cosine'`, guarded by `if (envDistance)`. -/
def normalizeChromaDistance (envDistance : Option String) : String :=
  match envDistance with
  | none => "cosine"
  | some s =>
    if s = "" then "cosine"
    else
      match s.toLower with
      | "cosine" => "cosine"
      | "euclidean" => "l2"
      | "l2" => "l2"
      | "dot" => "ip"
      | "ip" => "ip"
      | _ => "cosine"

/-- `getVectorStoreConfigFromEnv(agentConfig?)` of the source; the second
argument is the (possibly absent) `agentConfig.embedding.dimensions` value. -/
def getVectorStoreConfigFromEnv (e : EnvSource) (ov : Option JsDim) : VSConfig :=
  let storeType := e.VECTOR_STORE_TYPE
  let collectionName := e.VECTOR_STORE_COLLECTION
  let dimension := applyDimOverride (jsNumOrD e.VECTOR_STORE_DIMENSION 1536) ov
  let maxVectors := jsNumOrD e.VECTOR_STORE_MAX_VECTORS 10000
  if storeType = some "qdrant" then
    let host := e.VECTOR_STORE_HOST
    let url := e.VECTOR_STORE_URL
    if !truthyS url && !truthyS host then
      { type := "in-memory", collectionName := collectionName, dimension := dimension,
        maxVectors := some maxVectors, fallbackFrom := some "qdrant" }
    else
      { type := "qdrant", collectionName := collectionName, dimension := dimension,
        url := url, host := host, port := portOf e.VECTOR_STORE_PORT,
        apiKey := e.VECTOR_STORE_API_KEY, distance := e.VECTOR_STORE_DISTANCE,
        onDisk := e.VECTOR_STORE_ON_DISK }
  else if storeType = some "milvus" then
    let host := e.VECTOR_STORE_HOST
    let url := e.VECTOR_STORE_URL
    if !truthyS url && !truthyS host then
      { type := "in-memory", collectionName := collectionName, dimension := dimension,
        maxVectors := some maxVectors, fallbackFrom := some "milvus" }
    else
      { type := "milvus", collectionName := collectionName, dimension := dimension,
        url := url, host := host, port := portOf e.VECTOR_STORE_PORT,
        username := e.VECTOR_STORE_USERNAME, password := e.VECTOR_STORE_PASSWORD,
        token := e.VECTOR_STORE_API_KEY }
  else if storeType = some "chroma" then
    let host := e.VECTOR_STORE_HOST
    let url := e.VECTOR_STORE_URL
    if !truthyS url && !truthyS host then
      { type := "in-memory", collectionName := collectionName, dimension := dimension,
        maxVectors := some maxVectors, fallbackFrom := some "chroma" }
    else
      { type := "chroma", collectionName := collectionName, dimension := dimension,
        url := url, host := host, port := portOf e.VECTOR_STORE_PORT,
        distance := some (normalizeChromaDistance e.VECTOR_STORE_DISTANCE) }
  else if storeType = some "pinecone" then
    let apiKey := e.VECTOR_STORE_API_KEY
    if !truthyS apiKey then
      { type := "in-memory", collectionName := collectionName, dimension := dimension,
        maxVectors := some maxVectors, fallbackFrom := some "pinecone" }
    else
      { type := "pinecone", collectionName := collectionName, dimension := dimension,
        apiKey := apiKey, indexName := some collectionName,
        nameSpace := e.PINECONE_NAMESPACE,
        metric := jsOr e.PINECONE_METRIC e.VECTOR_STORE_DISTANCE }
  else
    { type := "in-memory", collectionName := collectionName, dimension := dimension,
      maxVectors := some maxVectors }

/-- `getWorkspaceVectorStoreConfigFromEnv(agentConfig?)` of the source. -/
def getWorkspaceVectorStoreConfigFromEnv (e : EnvSource) (ov : Option JsDim) : VSConfig :=
  let storeType := jsOr e.WORKSPACE_VECTOR_STORE_TYPE e.VECTOR_STORE_TYPE
  let collectionName := jsOrD e.WORKSPACE_VECTOR_STORE_COLLECTION "workspace_memory"
  let dimension :=
    applyDimOverride
      (jsNumOrD e.WORKSPACE_VECTOR_STORE_DIMENSION (jsNumOrD e.VECTOR_STORE_DIMENSION 1536)) ov
  let maxVectors :=
    jsNumOrD e.WORKSPACE_VECTOR_STORE_MAX_VECTORS (jsNumOrD e.VECTOR_STORE_MAX_VECTORS 10000)
  if storeType = some "qdrant" then
    let host := jsOr e.WORKSPACE_VECTOR_STORE_HOST e.VECTOR_STORE_HOST
    let url := jsOr e.WORKSPACE_VECTOR_STORE_URL e.VECTOR_STORE_URL
    if !truthyS url && !truthyS host then
      { type := "in-memory", collectionName := collectionName, dimension := dimension,
        maxVectors := some maxVectors, fallbackFrom := some "qdrant-workspace" }
    else
      { type := "qdrant", collectionName := collectionName, dimension := dimension,
        url := url, host := host,
        port := wsPortOf e.WORKSPACE_VECTOR_STORE_PORT e.VECTOR_STORE_PORT,
        apiKey := jsOr e.WORKSPACE_VECTOR_STORE_API_KEY e.VECTOR_STORE_API_KEY,
        distance := jsOr e.WORKSPACE_VECTOR_STORE_DISTANCE e.VECTOR_STORE_DISTANCE,
        onDisk := e.WORKSPACE_VECTOR_STORE_ON_DISK }
  else if storeType = some "milvus" then
    let host := jsOr e.WORKSPACE_VECTOR_STORE_HOST e.VECTOR_STORE_HOST
    let url := jsOr e.WORKSPACE_VECTOR_STORE_URL e.VECTOR_STORE_URL
    if !truthyS url && !truthyS host then
      { type := "in-memory", collectionName := collectionName, dimension := dimension,
        maxVectors := some maxVectors, fallbackFrom := some "milvus-workspace" }
    else
      { type := "milvus", collectionName := collectionName, dimension := dimension,
        url := url, host := host,
        port := wsPortOf e.WORKSPACE_VECTOR_STORE_PORT e.VECTOR_STORE_PORT,
        username := jsOr e.WORKSPACE_VECTOR_STORE_USERNAME e.VECTOR_STORE_USERNAME,
        password := jsOr e.WORKSPACE_VECTOR_STORE_PASSWORD e.VECTOR_STORE_PASSWORD,
        token := jsOr e.WORKSPACE_VECTOR_STORE_API_KEY e.VECTOR_STORE_API_KEY }
  else if storeType = some "chroma" then
    let host := jsOr e.WORKSPACE_VECTOR_STORE_HOST e.VECTOR_STORE_HOST
    let url := jsOr e.WORKSPACE_VECTOR_STORE_URL e.VECTOR_STORE_URL
    if !truthyS url && !truthyS host then
      { type := "in-memory", collectionName := collectionName, dimension := dimension,
        maxVectors := some maxVectors, fallbackFrom := some "chroma-workspace" }
    else
      { type := "chroma", collectionName := collectionName, dimension := dimension,
        url := url, host := host,
        port := wsPortOf e.WORKSPACE_VECTOR_STORE_PORT e.VECTOR_STORE_PORT,
        distance := some (normalizeChromaDistance
          (jsOr e.WORKSPACE_VECTOR_STORE_DISTANCE e.VECTOR_STORE_DISTANCE)) }
  else if storeType = some "pinecone" then
    let apiKey := e.VECTOR_STORE_API_KEY
    if !truthyS apiKey then
      { type := "in-memory", collectionName := collectionName, dimension := dimension,
        maxVectors := some maxVectors, fallbackFrom := some "pinecone-workspace" }
    else
      { type := "pinecone", collectionName := collectionName, dimension := dimension,
        apiKey := apiKey, indexName := some collectionName,
        nameSpace := some (if truthyS e.PINECONE_NAMESPACE
          then (e.PINECONE_NAMESPACE.getD "") ++ "-workspace" else "workspace"),
        metric := jsOr e.PINECONE_METRIC e.VECTOR_STORE_DISTANCE }
  else
    { type := "in-memory", collectionName := collectionName, dimension := dimension,
      maxVectors := some maxVectors }

/-- An environment source with every variable unset (numeric env reads
produce `NaN` when the underlying variable is unset). -/
def envNone : EnvSource where
  VECTOR_STORE_TYPE := none
  VECTOR_STORE_COLLECTION := "default"
  VECTOR_STORE_DIMENSION := none
  VECTOR_STORE_MAX_VECTORS := none
  VECTOR_STORE_HOST := none
  VECTOR_STORE_URL := none
  VECTOR_STORE_PORT := JsNum.nan
  VECTOR_STORE_API_KEY := none
  VECTOR_STORE_DISTANCE := none
  VECTOR_STORE_ON_DISK := none
  VECTOR_STORE_USERNAME := none
  VECTOR_STORE_PASSWORD := none
  PINECONE_NAMESPACE := none
  PINECONE_METRIC := none
  REFLECTION_VECTOR_STORE_COLLECTION := none
  USE_WORKSPACE_MEMORY := false
  WORKSPACE_VECTOR_STORE_TYPE := none
  WORKSPACE_VECTOR_STORE_COLLECTION := none
  WORKSPACE_VECTOR_STORE_DIMENSION := none
  WORKSPACE_VECTOR_STORE_MAX_VECTORS := none
  WORKSPACE_VECTOR_STORE_HOST := none
  WORKSPACE_VECTOR_STORE_URL := none
  WORKSPACE_VECTOR_STORE_PORT := JsNum.nan
  WORKSPACE_VECTOR_STORE_API_KEY := none
  WORKSPACE_VECTOR_STORE_DISTANCE := none
  WORKSPACE_VECTOR_STORE_ON_DISK := none
  WORKSPACE_VECTOR_STORE_USERNAME := none
  WORKSPACE_VECTOR_STORE_PASSWORD := none

/-!
## Orchestration (dual / multi collection factories)

The managers (`DualCollectionVectorManager`, `MultiCollectionVectorManager`)
live outside `src/`; their `connect`/`getStore` behaviour is modelled from
the spec (section 4.4), while the factory-internal functions below embed the
source's `createDualCollectionVectorStoreInternal` /
`createMultiCollectionVectorStoreInternal` control flow exactly
(trim-and-blank check, try/catch, disconnect-and-swallow, rethrow).
-/

/-- JS `String.prototype.trim()`: strip whitespace from both ends
(defined over the character list so it is kernel-computable). -/
def jsTrim (s : String) : String :=
  String.mk (((s.data.dropWhile Char.isWhitespace).reverse.dropWhile Char.isWhitespace).reverse)

/-- Modelled from the spec: per-collection construction outcomes of a
`DualCollectionVectorManager` (its source file `dual-collection-manager.js`
is not under `src/`).  `connect` constructs `knowledge` first and then, when
reflection is enabled, `reflection`, in that fixed order, propagating the
first construction error (spec section 4.4); `disconnectFails` records
whether a later `disconnect` call would itself throw. -/
structure DualManagerModel (S : Type) where
  knowledgeResult : Except String S
  reflectionResult : Except String S
  disconnectFails : Bool

/-- Modelled from the spec: `manager.connect()` for the dual manager.
Returns the connected stores together with whether a construction attempt
was made for the reflection collection. -/
def dualManagerConnect {S : Type} (m : DualManagerModel S) (reflectionEnabled : Bool) :
    Except String (S × Option S) × Bool :=
  match m.knowledgeResult with
  | Except.error err => (Except.error err, false)
  | Except.ok ks =>
    if reflectionEnabled then
      match m.reflectionResult with
      | Except.error err => (Except.error err, true)
      | Except.ok rs => (Except.ok (ks, some rs), true)
    else (Except.ok (ks, none), false)

/-- The `DualCollectionVectorFactory` result shape (manager identity elided). -/
structure DualCollectionVectorFactory (S : Type) where
  knowledgeStore : S
  reflectionStore : Option S
deriving DecidableEq, Repr

/-- Observable outcome of one orchestration call: the returned value or the
propagated error, whether `manager.disconnect()` was invoked as cleanup,
and whether a construction attempt was made for the reflection collection. -/
structure OrchTrace (R : Type) where
  result : Except String R
  disconnectCalled : Bool
  reflectionAttempted : Bool
deriving Repr

/-- `createDualCollectionVectorStoreInternal` of the source: trim the
reflection collection name; when blank, connect with reflection disabled and
return `reflectionStore: null` (no try/catch on this path); otherwise
connect inside try/catch — on any error, call `manager.disconnect()`
swallowing its own failure, then rethrow the original error. -/
def createDualCollectionVectorStoreInternal {S : Type}
    (reflEnv : Option String) (m : DualManagerModel S) : OrchTrace (DualCollectionVectorFactory S) :=
  let reflectionCollection := jsTrim (reflEnv.getD "")
  if reflectionCollection = "" then
    match dualManagerConnect m false with
    | (Except.error err, att) =>
      { result := Except.error err, disconnectCalled := false, reflectionAttempted := att }
    | (Except.ok (ks, _), att) =>
      { result := Except.ok { knowledgeStore := ks, reflectionStore := none },
        disconnectCalled := false, reflectionAttempted := att }
  else
    match dualManagerConnect m true with
    | (Except.error err, att) =>
      { result := Except.error err, disconnectCalled := true, reflectionAttempted := att }
    | (Except.ok (ks, rs), att) =>
      { result := Except.ok { knowledgeStore := ks, reflectionStore := rs },
        disconnectCalled := false, reflectionAttempted := att }

/-- Modelled from the spec: per-collection construction outcomes of a
`MultiCollectionVectorManager` (its source file `multi-collection-manager.js`
is not under `src/`).  `connect` constructs `knowledge`, then `reflection`
when enabled, then `workspace` when enabled, in that fixed order,
propagating the first construction error (spec sections 4.4 and 5). -/
structure MultiManagerModel (S : Type) where
  knowledgeResult : Except String S
  reflectionResult : Except String S
  workspaceResult : Except String S
  disconnectFails : Bool

/-- Modelled from the spec: `manager.connect()` for the multi manager. -/
def multiManagerConnect {S : Type} (m : MultiManagerModel S)
    (reflectionEnabled workspaceEnabled : Bool) :
    Except String (S × Option S × Option S) :=
  match m.knowledgeResult with
  | Except.error err => Except.error err
  | Except.ok ks =>
    match (if reflectionEnabled then m.reflectionResult.map some else Except.ok none) with
    | Except.error err => Except.error err
    | Except.ok rs =>
      match (if workspaceEnabled then m.workspaceResult.map some else Except.ok none) with
      | Except.error err => Except.error err
      | Except.ok ws => Except.ok (ks, rs, ws)

/-- The `MultiCollectionVectorFactory` result shape (manager identity elided). -/
structure MultiCollectionVectorFactory (S : Type) where
  knowledgeStore : S
  reflectionStore : Option S
  workspaceStore : Option S
deriving DecidableEq, Repr

/-- `createMultiCollectionVectorStoreInternal` of the source: connect inside
try/catch — on any error, call `manager.disconnect()` swallowing its own
failure, then rethrow the original error; on success return the three
store slots. -/
def createMultiCollectionVectorStoreInternal {S : Type}
    (reflectionEnabled workspaceEnabled : Bool) (m : MultiManagerModel S) :
    Except String (MultiCollectionVectorFactory S) × Bool :=
  match multiManagerConnect m reflectionEnabled workspaceEnabled with
  | Except.error err => (Except.error err, true)
  | Except.ok (ks, rs, ws) =>
    (Except.ok { knowledgeStore := ks, reflectionStore := rs, workspaceStore := ws }, false)

/-!
## ServiceCache (single-flight keyed memoization)

`getServiceCache`/`createServiceKey`/`getOrCreate` live in
`service-cache.js`, which is not under `src/`; the cache is modelled from
the spec (sections 4.3 and 5): single-threaded cooperative execution, a
process-wide keyed map, at-most-one in-flight construction per key.  In a
batch of logically-concurrent calls, the first call for a key registers the
pending construction and invokes the factory; every later call finds the
entry and awaits the same handle.
-/

/-- Modelled from the spec: the state of the process-wide service cache —
the keyed entries (pending-or-ready handles) plus a count of factory
invocations, which the spec requires to be at most one per key. -/
structure ServiceCacheState (K H : Type) where
  entries : List (K × H)
  factoryCalls : Nat

/-- Association-list lookup for cache entries. -/
def cacheLookup {K H : Type} [DecidableEq K] : List (K × H) → K → Option H
  | [], _ => none
  | (k0, h) :: rest, k => if k = k0 then some h else cacheLookup rest k

/-- Modelled from the spec: `serviceCache.getOrCreate(key, factory)` under
cooperative scheduling — an arriving call atomically checks the map; on a
hit it awaits/returns the existing (pending-or-ready) handle, on a miss it
registers the pending handle and invokes the factory exactly once. -/
def getOrCreate {K H : Type} [DecidableEq K]
    (s : ServiceCacheState K H) (k : K) (factory : H) : H × ServiceCacheState K H :=
  match cacheLookup s.entries k with
  | some h => (h, s)
  | none => (factory, { entries := (k, factory) :: s.entries, factoryCalls := s.factoryCalls + 1 })

/-- A batch of `n` logically-concurrent calls with the same key and factory,
executed in arrival order under cooperative scheduling. -/
def runConcurrentCalls {K H : Type} [DecidableEq K]
    (s : ServiceCacheState K H) (k : K) (factory : H) : Nat → List H × ServiceCacheState K H
  | 0 => ([], s)
  | n + 1 =>
    let (h, s1) := getOrCreate s k factory
    let (hs, s2) := runConcurrentCalls s1 k factory n
    (h :: hs, s2)

/-- The canonical composite cache key: service name, backend type, the
relevant collection names, the workspace-enabled flag, and dimension — the
fields `createServiceKey` receives from the two `FromEnv` orchestrators
(absent fields canonicalized to their defaults there). -/
structure ServiceKey where
  name : String
  type : String
  collection : String
  reflectionCollection : String
  workspaceCollection : String
  workspaceEnabled : Bool
  dimension : Int
deriving DecidableEq, Repr

/-- `createServiceKey('dualCollectionVectorStore', ...)` as built by
`createDualCollectionVectorStoreFromEnv`: backend type, knowledge collection,
reflection collection (or `''`), and dimension (the workspace components are
not part of this key and stay at their canonical defaults). -/
def dualCollectionServiceKey (e : EnvSource) (ov : Option JsDim) : ServiceKey :=
  let config := getVectorStoreConfigFromEnv e ov
  { name := "dualCollectionVectorStore", type := config.type
    collection := config.collectionName
    reflectionCollection := e.REFLECTION_VECTOR_STORE_COLLECTION.getD ""
    workspaceCollection := "", workspaceEnabled := false
    dimension := config.dimension }

/-- `createServiceKey('multiCollectionVectorStore', ...)` as built by
`createMultiCollectionVectorStoreFromEnv`: backend type, knowledge
collection, reflection collection (or `''`), workspace collection (or
`'workspace_memory'`), the workspace-enabled flag, and dimension. -/
def multiCollectionServiceKey (e : EnvSource) (ov : Option JsDim) : ServiceKey :=
  let config := getVectorStoreConfigFromEnv e ov
  { name := "multiCollectionVectorStore", type := config.type
    collection := config.collectionName
    reflectionCollection := e.REFLECTION_VECTOR_STORE_COLLECTION.getD ""
    workspaceCollection := e.WORKSPACE_VECTOR_STORE_COLLECTION.getD "workspace_memory"
    workspaceEnabled := e.USE_WORKSPACE_MEMORY, dimension := config.dimension }

/-! ## Helper lemmas -/

theorem jsOr_of_not_truthy (a b : Option String) (ha : truthyS a = false) : jsOr a b = b := by
  simp [jsOr, ha]

theorem dimension_getVectorStoreConfigFromEnv (e : EnvSource) (ov : Option JsDim) :
    (getVectorStoreConfigFromEnv e ov).dimension =
      applyDimOverride (jsNumOrD e.VECTOR_STORE_DIMENSION 1536) ov := by
  simp only [getVectorStoreConfigFromEnv]
  repeat' split
  all_goals rfl

theorem dimension_getWorkspaceVectorStoreConfigFromEnv (e : EnvSource) (ov : Option JsDim) :
    (getWorkspaceVectorStoreConfigFromEnv e ov).dimension =
      applyDimOverride
        (jsNumOrD e.WORKSPACE_VECTOR_STORE_DIMENSION (jsNumOrD e.VECTOR_STORE_DIMENSION 1536))
        ov := by
  simp only [getWorkspaceVectorStoreConfigFromEnv]
  repeat' split
  all_goals rfl

theorem applyDimOverride_pos (dim n : Int) (hn : 0 < n) :
    applyDimOverride dim (some (JsDim.num n)) = n := by
  simp [applyDimOverride, dimTruthy, hn, hn.ne', le_of_lt]

theorem applyDimOverride_not_pos (dim : Int) (d : JsDim)
    (hd : ∀ m : Int, d = JsDim.num m → m ≤ 0) :
    applyDimOverride dim (some d) = dim := by
  cases d with
  | num m =>
    have hm := hd m rfl
    simp [applyDimOverride, dimTruthy]
    intro _
    omega
  | nan => simp [applyDimOverride, dimTruthy]
  | other => simp [applyDimOverride, dimTruthy]

/-! ## Claim C4 — external dimension override -/

/-- C4: a positive numeric `agentConfig.embedding.dimensions` override forces
the resolved dimension of both entry points to the override, regardless of
any environment-provided dimension; a non-numeric, `NaN`, zero, or negative
override leaves the environment-derived dimension unchanged. -/
theorem claim4_dimension_override (e : EnvSource) (n : Int) (hn : 0 < n) (d : JsDim)
    (hd : ∀ m : Int, d = JsDim.num m → m ≤ 0) :
    (getVectorStoreConfigFromEnv e (some (JsDim.num n))).dimension = n ∧
    (getWorkspaceVectorStoreConfigFromEnv e (some (JsDim.num n))).dimension = n ∧
    (getVectorStoreConfigFromEnv e (some d)).dimension =
      (getVectorStoreConfigFromEnv e none).dimension ∧
    (getWorkspaceVectorStoreConfigFromEnv e (some d)).dimension =
      (getWorkspaceVectorStoreConfigFromEnv e none).dimension := by
  refine ⟨?_, ?_, ?_, ?_⟩
  · rw [dimension_getVectorStoreConfigFromEnv, applyDimOverride_pos _ n hn]
  · rw [dimension_getWorkspaceVectorStoreConfigFromEnv, applyDimOverride_pos _ n hn]
  · rw [dimension_getVectorStoreConfigFromEnv, dimension_getVectorStoreConfigFromEnv,
      applyDimOverride_not_pos _ d hd]
    rfl
  · rw [dimension_getWorkspaceVectorStoreConfigFromEnv,
      dimension_getWorkspaceVectorStoreConfigFromEnv, applyDimOverride_not_pos _ d hd]
    rfl

theorem claim4_dimension_override_witness :
    (getVectorStoreConfigFromEnv
      { envNone with VECTOR_STORE_DIMENSION := some (JsNum.val 512) }
      (some (JsDim.num 768))).dimension = 768 ∧
    (getWorkspaceVectorStoreConfigFromEnv
      { envNone with VECTOR_STORE_DIMENSION := some (JsNum.val 512) }
      (some (JsDim.num 768))).dimension = 768 ∧
    (getVectorStoreConfigFromEnv
      { envNone with VECTOR_STORE_DIMENSION := some (JsNum.val 512) }
      (some (JsDim.num (-3)))).dimension =
      (getVectorStoreConfigFromEnv
        { envNone with VECTOR_STORE_DIMENSION := some (JsNum.val 512) } none).dimension ∧
    (getWorkspaceVectorStoreConfigFromEnv
      { envNone with VECTOR_STORE_DIMENSION := some (JsNum.val 512) }
      (some (JsDim.num (-3)))).dimension =
      (getWorkspaceVectorStoreConfigFromEnv
        { envNone with VECTOR_STORE_DIMENSION := some (JsNum.val 512) } none).dimension :=
  claim4_dimension_override _ 768 (by decide) (JsDim.num (-3))
    (by intro m hm; cases hm; decide)

/-! ## Claim C8 — exact qdrant fallback config -/

/-- C8: with `VECTOR_STORE_TYPE=qdrant`, neither host nor url set, and no
dimension or maxVectors provided, the default entry point returns exactly
the in-memory config with dimension 1536, maxVectors 10000, and
`_fallbackFrom: 'qdrant'`. -/
theorem claim8_qdrant_fallback_exact (e : EnvSource)
    (htype : e.VECTOR_STORE_TYPE = some "qdrant")
    (hurl : truthyS e.VECTOR_STORE_URL = false)
    (hhost : truthyS e.VECTOR_STORE_HOST = false)
    (hdim : e.VECTOR_STORE_DIMENSION = none)
    (hmax : e.VECTOR_STORE_MAX_VECTORS = none) :
    getVectorStoreConfigFromEnv e none =
      { type := "in-memory", collectionName := e.VECTOR_STORE_COLLECTION,
        dimension := 1536, maxVectors := some 10000, fallbackFrom := some "qdrant" } := by
  simp [getVectorStoreConfigFromEnv, htype, hurl, hhost, hdim, hmax, jsNumOrD, applyDimOverride]

theorem claim8_qdrant_fallback_exact_witness :
    getVectorStoreConfigFromEnv { envNone with VECTOR_STORE_TYPE := some "qdrant" } none =
      { type := "in-memory", collectionName := "default", dimension := 1536,
        maxVectors := some 10000, fallbackFrom := some "qdrant" } :=
  claim8_qdrant_fallback_exact { envNone with VECTOR_STORE_TYPE := some "qdrant" }
    (by decide) (by decide) (by decide) (by decide) (by decide)

/-! ## Claim C9 — pinecone indexName equals collectionName -/

/-- C9: whenever the default entry point resolves to a pinecone config, its
`indexName` equals its `collectionName` (both taken from
`VECTOR_STORE_COLLECTION`). -/
theorem claim9_pinecone_indexName (e : EnvSource) (ov : Option JsDim)
    (h : (getVectorStoreConfigFromEnv e ov).type = "pinecone") :
    (getVectorStoreConfigFromEnv e ov).indexName =
      some (getVectorStoreConfigFromEnv e ov).collectionName ∧
    (getVectorStoreConfigFromEnv e ov).collectionName = e.VECTOR_STORE_COLLECTION := by
  revert h
  simp only [getVectorStoreConfigFromEnv]
  repeat' split
  all_goals intro h
  all_goals simp_all

/-- A source that resolves to a pinecone config. -/
def envPinecone : EnvSource :=
  { envNone with
    VECTOR_STORE_TYPE := some "pinecone"
    VECTOR_STORE_API_KEY := some "key"
    VECTOR_STORE_COLLECTION := "idx" }

theorem claim9_pinecone_indexName_witness :
    (getVectorStoreConfigFromEnv envPinecone none).type = "pinecone" ∧
    (getVectorStoreConfigFromEnv envPinecone none).indexName =
      some (getVectorStoreConfigFromEnv envPinecone none).collectionName :=
  ⟨by decide, (claim9_pinecone_indexName envPinecone none (by decide)).1⟩

/-! ## Claim C10 — workspace pinecone namespace separation -/

theorem append_workspace_ne (s : String) : s ++ "-workspace" ≠ s := by
  intro h
  have hlen := congrArg String.length h
  rw [String.length_append] at hlen
  have h10 : ("-workspace" : String).length = 10 := rfl
  omega

theorem nameSpace_getVectorStoreConfigFromEnv (e : EnvSource) (ov : Option JsDim) :
    (getVectorStoreConfigFromEnv e ov).nameSpace = none ∨
    (getVectorStoreConfigFromEnv e ov).nameSpace = e.PINECONE_NAMESPACE := by
  simp only [getVectorStoreConfigFromEnv]
  repeat' split
  all_goals simp

/-- C10: whenever the workspace entry point resolves to a pinecone config,
its namespace is `PINECONE_NAMESPACE + '-workspace'` when that variable is
set and non-empty, and the literal `'workspace'` otherwise; in either case
it differs from the namespace of the default entry point's config. -/
theorem claim10_workspace_pinecone_namespace (e : EnvSource) (ov : Option JsDim)
    (h : (getWorkspaceVectorStoreConfigFromEnv e ov).type = "pinecone") :
    (getWorkspaceVectorStoreConfigFromEnv e ov).nameSpace =
      some (if truthyS e.PINECONE_NAMESPACE
        then (e.PINECONE_NAMESPACE.getD "") ++ "-workspace" else "workspace") ∧
    (getWorkspaceVectorStoreConfigFromEnv e ov).nameSpace ≠
      (getVectorStoreConfigFromEnv e ov).nameSpace := by
  have hns : (getWorkspaceVectorStoreConfigFromEnv e ov).nameSpace =
      some (if truthyS e.PINECONE_NAMESPACE
        then (e.PINECONE_NAMESPACE.getD "") ++ "-workspace" else "workspace") := by
    revert h
    simp only [getWorkspaceVectorStoreConfigFromEnv]
    repeat' split
    all_goals intro h
    all_goals simp_all
  refine ⟨hns, ?_⟩
  rw [hns]
  rcases nameSpace_getVectorStoreConfigFromEnv e ov with hd | hd <;> rw [hd]
  · simp
  · cases hps : e.PINECONE_NAMESPACE with
    | none => simp
    | some s =>
      by_cases hs : s = ""
      · subst hs
        simp [truthyS]
      · intro hcontra
        have h1 := Option.some.inj hcontra
        rw [if_pos (show truthyS (some s) = true by simp [truthyS, hs])] at h1
        exact append_workspace_ne s (by simpa using h1)

/-- A source that resolves the workspace entry point to a pinecone config
with a namespace set. -/
def envPineconeWs : EnvSource :=
  { envNone with
    VECTOR_STORE_TYPE := some "pinecone"
    VECTOR_STORE_API_KEY := some "key"
    PINECONE_NAMESPACE := some "prod" }

theorem claim10_workspace_pinecone_namespace_witness :
    (getWorkspaceVectorStoreConfigFromEnv envPineconeWs none).nameSpace =
      some (if truthyS envPineconeWs.PINECONE_NAMESPACE
        then (envPineconeWs.PINECONE_NAMESPACE.getD "") ++ "-workspace" else "workspace") ∧
    (getWorkspaceVectorStoreConfigFromEnv envPineconeWs none).nameSpace ≠
      (getVectorStoreConfigFromEnv envPineconeWs none).nameSpace :=
  claim10_workspace_pinecone_namespace envPineconeWs none (by decide)

/-! ## Claim C1 — fallback origin tags -/

/-- A source requesting qdrant with neither host nor url set (in either the
default or the workspace variable scope). -/
def envQdrantNoConn : EnvSource :=
  { envNone with VECTOR_STORE_TYPE := some "qdrant" }

/-- C1 counterexample: with requested backend type qdrant and no connection
info, the workspace entry point tags the in-memory fallback with
`'qdrant-workspace'`, not with the originally requested type `'qdrant'` as
the claim states. -/
theorem claim1_fallback_tag_counterexample :
    jsOr envQdrantNoConn.WORKSPACE_VECTOR_STORE_TYPE envQdrantNoConn.VECTOR_STORE_TYPE =
      some "qdrant" ∧
    truthyS envQdrantNoConn.VECTOR_STORE_URL = false ∧
    truthyS envQdrantNoConn.VECTOR_STORE_HOST = false ∧
    truthyS envQdrantNoConn.WORKSPACE_VECTOR_STORE_URL = false ∧
    truthyS envQdrantNoConn.WORKSPACE_VECTOR_STORE_HOST = false ∧
    (getWorkspaceVectorStoreConfigFromEnv envQdrantNoConn none).type = "in-memory" ∧
    (getWorkspaceVectorStoreConfigFromEnv envQdrantNoConn none).fallbackFrom =
      some "qdrant-workspace" ∧
    (getWorkspaceVectorStoreConfigFromEnv envQdrantNoConn none).fallbackFrom ≠
      some "qdrant" := by
  decide

/-- C1 amended: with missing connection info (or, for pinecone, missing
`VECTOR_STORE_API_KEY`), both entry points return an in-memory config; the
default entry point's `_fallbackFrom` equals the originally requested type,
while the workspace entry point's `_fallbackFrom` equals the requested type
with the suffix `'-workspace'` appended. -/
theorem claim1_amended_fallback_tags (e : EnvSource) (ov : Option JsDim) :
    (∀ t : String, t = "qdrant" ∨ t = "milvus" ∨ t = "chroma" →
      (truthyS e.VECTOR_STORE_URL = false → truthyS e.VECTOR_STORE_HOST = false →
        e.VECTOR_STORE_TYPE = some t →
        (getVectorStoreConfigFromEnv e ov).type = "in-memory" ∧
        (getVectorStoreConfigFromEnv e ov).fallbackFrom = some t) ∧
      (truthyS e.VECTOR_STORE_URL = false → truthyS e.VECTOR_STORE_HOST = false →
        truthyS e.WORKSPACE_VECTOR_STORE_URL = false →
        truthyS e.WORKSPACE_VECTOR_STORE_HOST = false →
        jsOr e.WORKSPACE_VECTOR_STORE_TYPE e.VECTOR_STORE_TYPE = some t →
        (getWorkspaceVectorStoreConfigFromEnv e ov).type = "in-memory" ∧
        (getWorkspaceVectorStoreConfigFromEnv e ov).fallbackFrom =
          some (t ++ "-workspace"))) ∧
    ((truthyS e.VECTOR_STORE_API_KEY = false → e.VECTOR_STORE_TYPE = some "pinecone" →
        (getVectorStoreConfigFromEnv e ov).type = "in-memory" ∧
        (getVectorStoreConfigFromEnv e ov).fallbackFrom = some "pinecone") ∧
      (truthyS e.VECTOR_STORE_API_KEY = false →
        jsOr e.WORKSPACE_VECTOR_STORE_TYPE e.VECTOR_STORE_TYPE = some "pinecone" →
        (getWorkspaceVectorStoreConfigFromEnv e ov).type = "in-memory" ∧
        (getWorkspaceVectorStoreConfigFromEnv e ov).fallbackFrom =
          some "pinecone-workspace")) := by
  refine ⟨?_, ?_, ?_⟩
  · intro t ht
    constructor
    · intro hurl hhost htype
      rcases ht with rfl | rfl | rfl <;>
        simp [getVectorStoreConfigFromEnv, htype, hurl, hhost]
    · intro hurl hhost hwurl hwhost htype
      have hu := jsOr_of_not_truthy e.WORKSPACE_VECTOR_STORE_URL e.VECTOR_STORE_URL hwurl
      have hh := jsOr_of_not_truthy e.WORKSPACE_VECTOR_STORE_HOST e.VECTOR_STORE_HOST hwhost
      rcases ht with rfl | rfl | rfl <;>
        simp [getWorkspaceVectorStoreConfigFromEnv, htype, hu, hh, hurl, hhost]
  · intro hkey htype
    simp [getVectorStoreConfigFromEnv, htype, hkey]
  · intro hkey htype
    simp [getWorkspaceVectorStoreConfigFromEnv, htype, hkey]

theorem claim1_amended_fallback_tags_witness :
    ((getVectorStoreConfigFromEnv envQdrantNoConn none).type = "in-memory" ∧
      (getVectorStoreConfigFromEnv envQdrantNoConn none).fallbackFrom = some "qdrant") ∧
    ((getWorkspaceVectorStoreConfigFromEnv envQdrantNoConn none).type = "in-memory" ∧
      (getWorkspaceVectorStoreConfigFromEnv envQdrantNoConn none).fallbackFrom =
        some ("qdrant" ++ "-workspace")) :=
  ⟨((claim1_amended_fallback_tags envQdrantNoConn none).1 "qdrant" (Or.inl rfl)).1
      (by decide) (by decide) (by decide),
    ((claim1_amended_fallback_tags envQdrantNoConn none).1 "qdrant" (Or.inl rfl)).2
      (by decide) (by decide) (by decide) (by decide) (by decide)⟩

/-! ## Claim C5 — workspace field-by-field fallback -/

/-- A source with the workspace collection unset but the default collection
set: the claim predicts `collectionName = "foo"`. -/
def envWsCollectionFallback : EnvSource :=
  { envNone with VECTOR_STORE_COLLECTION := "foo" }

/-- A source requesting pinecone with only the workspace-prefixed API key
set: the claim predicts a pinecone config using that key. -/
def envWsPineconeKey : EnvSource :=
  { envNone with
    VECTOR_STORE_TYPE := some "pinecone"
    WORKSPACE_VECTOR_STORE_API_KEY := some "wskey" }

/-- C5 counterexample: (a) with `WORKSPACE_VECTOR_STORE_COLLECTION` unset
and `VECTOR_STORE_COLLECTION = "foo"`, the workspace collection name
resolves to `"workspace_memory"`, not `"foo"` — the non-prefixed collection
variable is never consulted; (b) with only `WORKSPACE_VECTOR_STORE_API_KEY`
set, the workspace pinecone branch ignores it and falls back to in-memory,
so the apiKey field does not follow the workspace-prefixed chain. -/
theorem claim5_field_fallback_counterexample :
    ((getWorkspaceVectorStoreConfigFromEnv envWsCollectionFallback none).collectionName =
        "workspace_memory" ∧
      (getWorkspaceVectorStoreConfigFromEnv envWsCollectionFallback none).collectionName ≠
        "foo") ∧
    (truthyS envWsPineconeKey.WORKSPACE_VECTOR_STORE_API_KEY = true ∧
      (getWorkspaceVectorStoreConfigFromEnv envWsPineconeKey none).type = "in-memory" ∧
      (getWorkspaceVectorStoreConfigFromEnv envWsPineconeKey none).apiKey ≠ some "wskey") := by
  decide

/-- C5 amended: the workspace entry point resolves type, dimension,
maxVectors, and — inside the qdrant/milvus/chroma branches — host, url,
port, apiKey, distance, username and password through the independent
workspace-prefixed-then-non-prefixed chain; but collectionName resolves as
`WORKSPACE_VECTOR_STORE_COLLECTION || 'workspace_memory'` without consulting
`VECTOR_STORE_COLLECTION`, and the pinecone branch takes apiKey from
`VECTOR_STORE_API_KEY` only and metric from
`PINECONE_METRIC || VECTOR_STORE_DISTANCE`, ignoring workspace-prefixed
variables. -/
theorem claim5_amended_field_fallback (e : EnvSource) :
    (getWorkspaceVectorStoreConfigFromEnv e none).collectionName =
      jsOrD e.WORKSPACE_VECTOR_STORE_COLLECTION "workspace_memory" ∧
    (getWorkspaceVectorStoreConfigFromEnv e none).dimension =
      jsNumOrD e.WORKSPACE_VECTOR_STORE_DIMENSION (jsNumOrD e.VECTOR_STORE_DIMENSION 1536) ∧
    ((getWorkspaceVectorStoreConfigFromEnv e none).type = "in-memory" →
      (getWorkspaceVectorStoreConfigFromEnv e none).maxVectors =
        some (jsNumOrD e.WORKSPACE_VECTOR_STORE_MAX_VECTORS
          (jsNumOrD e.VECTOR_STORE_MAX_VECTORS 10000))) ∧
    ((getWorkspaceVectorStoreConfigFromEnv e none).type = "qdrant" →
      (getWorkspaceVectorStoreConfigFromEnv e none).host =
        jsOr e.WORKSPACE_VECTOR_STORE_HOST e.VECTOR_STORE_HOST ∧
      (getWorkspaceVectorStoreConfigFromEnv e none).url =
        jsOr e.WORKSPACE_VECTOR_STORE_URL e.VECTOR_STORE_URL ∧
      (getWorkspaceVectorStoreConfigFromEnv e none).port =
        wsPortOf e.WORKSPACE_VECTOR_STORE_PORT e.VECTOR_STORE_PORT ∧
      (getWorkspaceVectorStoreConfigFromEnv e none).apiKey =
        jsOr e.WORKSPACE_VECTOR_STORE_API_KEY e.VECTOR_STORE_API_KEY ∧
      (getWorkspaceVectorStoreConfigFromEnv e none).distance =
        jsOr e.WORKSPACE_VECTOR_STORE_DISTANCE e.VECTOR_STORE_DISTANCE) ∧
    ((getWorkspaceVectorStoreConfigFromEnv e none).type = "milvus" →
      (getWorkspaceVectorStoreConfigFromEnv e none).host =
        jsOr e.WORKSPACE_VECTOR_STORE_HOST e.VECTOR_STORE_HOST ∧
      (getWorkspaceVectorStoreConfigFromEnv e none).url =
        jsOr e.WORKSPACE_VECTOR_STORE_URL e.VECTOR_STORE_URL ∧
      (getWorkspaceVectorStoreConfigFromEnv e none).port =
        wsPortOf e.WORKSPACE_VECTOR_STORE_PORT e.VECTOR_STORE_PORT ∧
      (getWorkspaceVectorStoreConfigFromEnv e none).username =
        jsOr e.WORKSPACE_VECTOR_STORE_USERNAME e.VECTOR_STORE_USERNAME ∧
      (getWorkspaceVectorStoreConfigFromEnv e none).password =
        jsOr e.WORKSPACE_VECTOR_STORE_PASSWORD e.VECTOR_STORE_PASSWORD ∧
      (getWorkspaceVectorStoreConfigFromEnv e none).token =
        jsOr e.WORKSPACE_VECTOR_STORE_API_KEY e.VECTOR_STORE_API_KEY) ∧
    ((getWorkspaceVectorStoreConfigFromEnv e none).type = "chroma" →
      (getWorkspaceVectorStoreConfigFromEnv e none).host =
        jsOr e.WORKSPACE_VECTOR_STORE_HOST e.VECTOR_STORE_HOST ∧
      (getWorkspaceVectorStoreConfigFromEnv e none).url =
        jsOr e.WORKSPACE_VECTOR_STORE_URL e.VECTOR_STORE_URL ∧
      (getWorkspaceVectorStoreConfigFromEnv e none).port =
        wsPortOf e.WORKSPACE_VECTOR_STORE_PORT e.VECTOR_STORE_PORT ∧
      (getWorkspaceVectorStoreConfigFromEnv e none).distance =
        some (normalizeChromaDistance
          (jsOr e.WORKSPACE_VECTOR_STORE_DISTANCE e.VECTOR_STORE_DISTANCE))) ∧
    ((getWorkspaceVectorStoreConfigFromEnv e none).type = "pinecone" →
      (getWorkspaceVectorStoreConfigFromEnv e none).apiKey = e.VECTOR_STORE_API_KEY ∧
      (getWorkspaceVectorStoreConfigFromEnv e none).metric =
        jsOr e.PINECONE_METRIC e.VECTOR_STORE_DISTANCE) ∧
    ((getWorkspaceVectorStoreConfigFromEnv e none).type = "in-memory" ∨
      some (getWorkspaceVectorStoreConfigFromEnv e none).type =
        jsOr e.WORKSPACE_VECTOR_STORE_TYPE e.VECTOR_STORE_TYPE) := by
  simp only [getWorkspaceVectorStoreConfigFromEnv]
  repeat' split
  all_goals simp_all [applyDimOverride]

/-- A source where the workspace host overrides the default host. -/
def envWsHostOverride : EnvSource :=
  { envNone with
    VECTOR_STORE_TYPE := some "qdrant"
    VECTOR_STORE_HOST := some "h"
    WORKSPACE_VECTOR_STORE_HOST := some "wsh" }

theorem claim5_amended_field_fallback_witness :
    (getWorkspaceVectorStoreConfigFromEnv envWsHostOverride none).host = some "wsh" :=
  (((claim5_amended_field_fallback envWsHostOverride).2.2.2.1) (by decide)).1.trans (by decide)

/-! ## Claim C6 — distance-metric normalization -/

/-- A source resolving to a qdrant config with an upper-case distance value. -/
def envQdrantDistance : EnvSource :=
  { envNone with
    VECTOR_STORE_TYPE := some "qdrant"
    VECTOR_STORE_HOST := some "localhost"
    VECTOR_STORE_DISTANCE := some "EUCLIDEAN" }

/-- C6 counterexample: the qdrant-resolved config carries the raw distance
string `"EUCLIDEAN"` unchanged — it is not normalized case-insensitively to
any member of the cosine/l2-euclidean/ip-dot set, contradicting the claim
for this remote backend config. -/
theorem claim6_distance_counterexample :
    (getVectorStoreConfigFromEnv envQdrantDistance none).type = "qdrant" ∧
    (getVectorStoreConfigFromEnv envQdrantDistance none).distance = some "EUCLIDEAN" ∧
    ¬ ((getVectorStoreConfigFromEnv envQdrantDistance none).distance = some "cosine" ∨
      (getVectorStoreConfigFromEnv envQdrantDistance none).distance = some "l2" ∨
      (getVectorStoreConfigFromEnv envQdrantDistance none).distance = some "euclidean" ∨
      (getVectorStoreConfigFromEnv envQdrantDistance none).distance = some "ip" ∨
      (getVectorStoreConfigFromEnv envQdrantDistance none).distance = some "dot") := by
  decide

/-- C6 amended: only the chroma branch normalizes the distance metric — its
value is `normalizeChromaDistance` of the environment distance, always one
of cosine/l2/ip, with absent or unrecognized values yielding cosine; the
qdrant branch passes the raw environment distance through unchanged, and the
pinecone branch passes `PINECONE_METRIC || VECTOR_STORE_DISTANCE` through
unchanged. -/
theorem claim6_amended_distance_normalization (e : EnvSource) (ov : Option JsDim) :
    ((getVectorStoreConfigFromEnv e ov).type = "chroma" →
      (getVectorStoreConfigFromEnv e ov).distance =
        some (normalizeChromaDistance e.VECTOR_STORE_DISTANCE)) ∧
    ((getWorkspaceVectorStoreConfigFromEnv e ov).type = "chroma" →
      (getWorkspaceVectorStoreConfigFromEnv e ov).distance =
        some (normalizeChromaDistance
          (jsOr e.WORKSPACE_VECTOR_STORE_DISTANCE e.VECTOR_STORE_DISTANCE))) ∧
    (∀ s : Option String, normalizeChromaDistance s = "cosine" ∨
      normalizeChromaDistance s = "l2" ∨ normalizeChromaDistance s = "ip") ∧
    normalizeChromaDistance none = "cosine" ∧
    (∀ s : String, normalizeChromaDistance (some s) = "cosine" ∨
      s.toLower = "cosine" ∨ s.toLower = "euclidean" ∨ s.toLower = "l2" ∨
      s.toLower = "dot" ∨ s.toLower = "ip") ∧
    ((getVectorStoreConfigFromEnv e ov).type = "qdrant" →
      (getVectorStoreConfigFromEnv e ov).distance = e.VECTOR_STORE_DISTANCE) ∧
    ((getVectorStoreConfigFromEnv e ov).type = "pinecone" →
      (getVectorStoreConfigFromEnv e ov).metric =
        jsOr e.PINECONE_METRIC e.VECTOR_STORE_DISTANCE) := by
  refine ⟨?_, ?_, ?_, rfl, ?_, ?_, ?_⟩
  · simp only [getVectorStoreConfigFromEnv]
    repeat' split
    all_goals intro h
    all_goals simp_all
  · simp only [getWorkspaceVectorStoreConfigFromEnv]
    repeat' split
    all_goals intro h
    all_goals simp_all
  · intro s
    unfold normalizeChromaDistance
    repeat' split
    all_goals simp
  · intro s
    unfold normalizeChromaDistance
    repeat' split
    all_goals simp_all
  · simp only [getVectorStoreConfigFromEnv]
    repeat' split
    all_goals intro h
    all_goals simp_all
  · simp only [getVectorStoreConfigFromEnv]
    repeat' split
    all_goals intro h
    all_goals simp_all

theorem claim6_amended_distance_normalization_witness :
    (getVectorStoreConfigFromEnv envQdrantDistance none).distance =
      envQdrantDistance.VECTOR_STORE_DISTANCE :=
  (claim6_amended_distance_normalization envQdrantDistance none).2.2.2.2.2.1 (by decide)

/-! ## Claim C2 — all-or-nothing orchestration with cleanup -/

/-- C2: when the reflection collection is enabled and its construction fails
after knowledge succeeded, both the dual- and multi-collection orchestration
calls propagate that construction error (no factory result is returned),
invoke the manager's disconnect as cleanup, and the propagated error does
not depend on whether the disconnect itself fails (its error is swallowed —
the manager models quantify over `disconnectFails`). -/
theorem claim2_all_or_nothing_cleanup {S : Type} (reflEnv : Option String)
    (hrefl : jsTrim (reflEnv.getD "") ≠ "")
    (ks : S) (err : String)
    (dm : DualManagerModel S)
    (hk : dm.knowledgeResult = Except.ok ks)
    (hr : dm.reflectionResult = Except.error err)
    (mm : MultiManagerModel S)
    (hk2 : mm.knowledgeResult = Except.ok ks)
    (hr2 : mm.reflectionResult = Except.error err)
    (wsEnabled : Bool) :
    (createDualCollectionVectorStoreInternal reflEnv dm).result = Except.error err ∧
    (createDualCollectionVectorStoreInternal reflEnv dm).disconnectCalled = true ∧
    (createMultiCollectionVectorStoreInternal true wsEnabled mm).1 = Except.error err ∧
    (createMultiCollectionVectorStoreInternal true wsEnabled mm).2 = true := by
  refine ⟨?_, ?_, ?_, ?_⟩ <;>
    simp [createDualCollectionVectorStoreInternal, dualManagerConnect, hrefl, hk, hr,
      createMultiCollectionVectorStoreInternal, multiManagerConnect, hk2, hr2, Except.map]

/-- A dual manager whose knowledge collection connects but whose reflection
collection construction fails, with a failing disconnect. -/
def dmReflBoom : DualManagerModel Nat :=
  ⟨Except.ok 1, Except.error "boom", true⟩

/-- A multi manager whose knowledge collection connects but whose reflection
collection construction fails, with a failing disconnect. -/
def mmReflBoom : MultiManagerModel Nat :=
  ⟨Except.ok 1, Except.error "boom", Except.ok 2, true⟩

theorem claim2_all_or_nothing_cleanup_witness :
    (createDualCollectionVectorStoreInternal (some "reflection_memory") dmReflBoom).result =
      Except.error "boom" ∧
    (createDualCollectionVectorStoreInternal (some "reflection_memory")
      dmReflBoom).disconnectCalled = true ∧
    (createMultiCollectionVectorStoreInternal true false mmReflBoom).1 =
      Except.error "boom" ∧
    (createMultiCollectionVectorStoreInternal true false mmReflBoom).2 = true :=
  claim2_all_or_nothing_cleanup (some "reflection_memory") (by decide) 1 "boom"
    dmReflBoom rfl rfl mmReflBoom rfl rfl false

/-! ## Claim C7 — blank reflection collection is a normal, reflection-free success -/

/-- C7: when `REFLECTION_VECTOR_STORE_COLLECTION` is unset or blank after
trimming, the dual-collection orchestration succeeds with
`reflectionStore = null`, makes no construction attempt for the reflection
collection, and performs no cleanup disconnect. -/
theorem claim7_blank_reflection_disabled {S : Type} (reflEnv : Option String)
    (dm : DualManagerModel S) (ks : S)
    (hblank : jsTrim (reflEnv.getD "") = "")
    (hk : dm.knowledgeResult = Except.ok ks) :
    (createDualCollectionVectorStoreInternal reflEnv dm).result =
      Except.ok { knowledgeStore := ks, reflectionStore := none } ∧
    (createDualCollectionVectorStoreInternal reflEnv dm).reflectionAttempted = false ∧
    (createDualCollectionVectorStoreInternal reflEnv dm).disconnectCalled = false := by
  refine ⟨?_, ?_, ?_⟩ <;>
    simp [createDualCollectionVectorStoreInternal, dualManagerConnect, hblank, hk]

/-- A dual manager for which both collections would connect. -/
def dmBothOk : DualManagerModel Nat :=
  ⟨Except.ok 1, Except.ok 2, false⟩

theorem claim7_blank_reflection_disabled_witness :
    ((createDualCollectionVectorStoreInternal none dmBothOk).result =
        Except.ok { knowledgeStore := 1, reflectionStore := none } ∧
      (createDualCollectionVectorStoreInternal none dmBothOk).reflectionAttempted = false ∧
      (createDualCollectionVectorStoreInternal none dmBothOk).disconnectCalled = false) ∧
    ((createDualCollectionVectorStoreInternal (some "   ") dmBothOk).result =
        Except.ok { knowledgeStore := 1, reflectionStore := none } ∧
      (createDualCollectionVectorStoreInternal (some "   ")
        dmBothOk).reflectionAttempted = false ∧
      (createDualCollectionVectorStoreInternal (some "   ")
        dmBothOk).disconnectCalled = false) :=
  ⟨claim7_blank_reflection_disabled none dmBothOk 1 (by decide) rfl,
    claim7_blank_reflection_disabled (some "   ") dmBothOk 1 (by decide) rfl⟩

/-! ## Claim C3 — single-flight service-cache idempotence -/

theorem cacheLookup_head {K H : Type} [DecidableEq K] (k : K) (h : H) (rest : List (K × H)) :
    cacheLookup ((k, h) :: rest) k = some h := by
  simp [cacheLookup]

theorem runConcurrentCalls_hit {K H : Type} [DecidableEq K]
    (s : ServiceCacheState K H) (k : K) (factory h : H)
    (hfound : cacheLookup s.entries k = some h) :
    ∀ n : Nat, runConcurrentCalls s k factory n = (List.replicate n h, s) := by
  intro n
  induction n with
  | zero => simp [runConcurrentCalls]
  | succ m ih => simp [runConcurrentCalls, getOrCreate, hfound, ih, List.replicate]

/-- C3: a batch of `n ≥ 1` logically-concurrent calls that compute the same
service-cache key (here: the key built by `createDualCollectionVectorStoreFromEnv`
or by `createMultiCollectionVectorStoreFromEnv` from one environment source)
against a cache with no entry for that key invokes the inner factory exactly
once, and all `n` calls resolve to the same handle instance. -/
theorem claim3_single_flight {H : Type} (e : EnvSource) (ov : Option JsDim)
    (dualHandle multiHandle : H) (n : Nat) (hn : 1 ≤ n) :
    (runConcurrentCalls ⟨[], 0⟩ (dualCollectionServiceKey e ov) dualHandle n).1 =
      List.replicate n dualHandle ∧
    (runConcurrentCalls ⟨[], 0⟩ (dualCollectionServiceKey e ov) dualHandle n).2.factoryCalls =
      1 ∧
    (runConcurrentCalls ⟨[], 0⟩ (multiCollectionServiceKey e ov) multiHandle n).1 =
      List.replicate n multiHandle ∧
    (runConcurrentCalls ⟨[], 0⟩ (multiCollectionServiceKey e ov) multiHandle n).2.factoryCalls =
      1 := by
  obtain ⟨m, rfl⟩ : ∃ m, n = m + 1 := ⟨n - 1, by omega⟩
  have step : ∀ (K : Type) (_ : DecidableEq K) (k : K) (h : H),
      runConcurrentCalls (⟨[], 0⟩ : ServiceCacheState K H) k h (m + 1) =
        (List.replicate (m + 1) h, ⟨[(k, h)], 1⟩) := by
    intro K instK k h
    have h1 : getOrCreate (⟨[], 0⟩ : ServiceCacheState K H) k h =
        (h, ⟨[(k, h)], 1⟩) := by
      simp [getOrCreate, cacheLookup]
    have h2 := runConcurrentCalls_hit (⟨[(k, h)], 1⟩ : ServiceCacheState K H) k h h
      (cacheLookup_head k h []) m
    simp [runConcurrentCalls, h1, h2, List.replicate]
  exact ⟨by rw [step _ inferInstance], by rw [step _ inferInstance],
    by rw [step _ inferInstance], by rw [step _ inferInstance]⟩

theorem claim3_single_flight_witness :
    (runConcurrentCalls ⟨[], 0⟩ (dualCollectionServiceKey envNone none) (0 : Nat) 3).1 =
      List.replicate 3 0 ∧
    (runConcurrentCalls ⟨[], 0⟩ (dualCollectionServiceKey envNone none) (0 : Nat) 3).2.factoryCalls =
      1 ∧
    (runConcurrentCalls ⟨[], 0⟩ (multiCollectionServiceKey envNone none) (1 : Nat) 3).1 =
      List.replicate 3 1 ∧
    (runConcurrentCalls ⟨[], 0⟩ (multiCollectionServiceKey envNone none) (1 : Nat) 3).2.factoryCalls =
      1 :=
  claim3_single_flight envNone none 0 1 3 (by decide)
